import Mathlib

set_option maxRecDepth 8000

/-!
Shallow embedding of the crop-recommendation service (`ai_model/app/app.py`,
`backend/app/services/ai_client.py`, `backend/app/services/recommendation_service.py`,
`backend/app/services/iot_service.py`) and proofs about it.

Modelling conventions:
* Python floats are modelled as rationals (`ℚ`); `round(x, d)` is modelled by
  rounding `x * 10^d` to the nearest integer and dividing back.
* Python `datetime` values are modelled as rational timestamps counted in seconds;
  `timedelta.total_seconds()` becomes plain subtraction.
* Python dicts with string keys are modelled as association lists in insertion
  order (`List (String × α)`); absent values and `None` both become `Option.none`
  wherever the code treats them alike.
* Python's stable sorts (`sorted`, and NumPy's argsort as observed on these
  inputs) are modelled with `List.insertionSort`, which inserts an earlier
  element in front of later elements with an equal key, i.e. a stable sort.
-/

/-- Python's substring test `needle in hay` on strings. -/
def pyIn (needle hay : String) : Bool :=
  decide (needle.toList <:+: hay.toList)

/-- Python's `any(word in msg for word in kws)`. -/
def matchesAny (msg : String) (kws : List String) : Bool :=
  kws.any (fun w => pyIn w msg)

/-- Python's `d.get(k)` on a string-keyed dict modelled as an association list. -/
def dictGet (d : List (String × α)) (k : String) : Option α :=
  (d.find? (fun kv => kv.1 == k)).map (fun kv => kv.2)

/-- Python's `sep.join(parts)`. -/
def pyJoin (sep : String) : List String → String
  | [] => ""
  | [x] => x
  | x :: y :: ys => x ++ sep ++ pyJoin sep (y :: ys)

/-- Python's `round(q, 1)` modelled on rationals (nearest-integer rounding of
ten times the value; the half-way tie rule is immaterial to every claim). -/
def round1 (q : ℚ) : ℚ := (round (q * 10) : ℚ) / 10

/-- Python's `round(q, 2)` modelled on rationals. -/
def round2 (q : ℚ) : ℚ := (round (q * 100) : ℚ) / 100

/-- Python's negative-index slice `l[-n:]`: the last `n` elements, except that
`l[-0:]` is the whole list. -/
def pySliceLast (n : ℕ) (l : List α) : List α :=
  if n = 0 then l else l.drop (l.length - n)

/-! ## Conversation threads (`ai_model/app/app.py`, class `ConversationThread`) -/

/-- A chat message as stored by `ConversationThread.add_message`. -/
structure Message where
  role : String
  content : String
  timestamp : ℚ
deriving DecidableEq

/-- The in-memory conversation thread of `ai_model/app/app.py`. -/
structure ConversationThread where
  zone_name : String
  messages : List Message
  max_messages : ℕ
  created_at : ℚ
  last_activity : ℚ
deriving DecidableEq

/-- `ConversationThread.__init__` (default `max_messages=50`); the clock is an
explicit parameter. -/
def newConversationThread (zone_name : String) (now : ℚ) (max_messages : ℕ := 50) :
    ConversationThread :=
  { zone_name := zone_name, messages := [], max_messages := max_messages,
    created_at := now, last_activity := now }

/-- `ConversationThread.add_message`: append the message, then keep only the
last `max_messages` entries (`self.messages[-self.max_messages:]`) when the
bound is exceeded. -/
def add_message (t : ConversationThread) (role content : String) (timestamp : ℚ) :
    ConversationThread :=
  let msgs := t.messages ++ [⟨role, content, timestamp⟩]
  { t with
    messages := if msgs.length > t.max_messages then pySliceLast t.max_messages msgs else msgs,
    last_activity := timestamp }

/-- `cleanup_old_threads(max_age_hours=24)`: collect the zones whose thread's
`last_activity` is more than `max_age_hours * 3600` seconds old, then delete
exactly those keys from the global dict. -/
def cleanup_old_threads (threads : List (String × ConversationThread))
    (current_time : ℚ) (max_age_hours : ℚ := 24) : List (String × ConversationThread) :=
  let zones_to_remove :=
    (threads.filter (fun zt => decide (current_time - zt.2.last_activity > max_age_hours * 3600))).map
      Prod.fst
  threads.filter (fun zt => !(decide (zt.1 ∈ zones_to_remove)))

/-- The 51 message bodies of the overflow scenario. -/
def fiftyOneContents : List String :=
  ["1", "2", "3", "4", "5", "6", "7", "8", "9", "10", "11", "12", "13", "14", "15", "16",
   "17", "18", "19", "20", "21", "22", "23", "24", "25", "26", "27", "28", "29", "30",
   "31", "32", "33", "34", "35", "36", "37", "38", "39", "40", "41", "42", "43", "44",
   "45", "46", "47", "48", "49", "50", "51"]

/-- A fresh thread (default cap 50) after appending the 51 scenario messages. -/
def overflowThread : ConversationThread :=
  fiftyOneContents.foldl (fun t c => add_message t "user" c 0) (newConversationThread "Z" 0)

lemma pySliceLast_suffix (n : ℕ) (l : List α) : pySliceLast n l <:+ l := by
  unfold pySliceLast
  split
  · exact List.suffix_rfl
  · exact List.drop_suffix _ _

lemma length_pySliceLast_le (n : ℕ) (l : List α) (h : 0 < n) :
    (pySliceLast n l).length ≤ max n l.length := by
  unfold pySliceLast
  split
  · omega
  · rw [List.length_drop]
    omega

set_option maxRecDepth 100000 in
/-- C2: after any `add_message` on a thread with a positive cap, the thread
holds at most `max_messages` messages and the stored list is a suffix of the
old list extended by the new message (so eviction, when it happens, removes
oldest-first); concretely, appending the 51 scenario messages to a fresh
thread with the default cap 50 leaves exactly 50 messages, with message "1"
(the oldest) absent and message "51" present. -/
theorem add_message_bounded_fifo :
    (∀ (t : ConversationThread) (role content : String) (ts : ℚ),
        0 < t.max_messages →
        ((add_message t role content ts).messages.length ≤ t.max_messages ∧
          (add_message t role content ts).messages <:+
            t.messages ++ [⟨role, content, ts⟩])) ∧
    (overflowThread.messages.length = 50 ∧
      (∀ m ∈ overflowThread.messages, m.content ≠ "1") ∧
      (∃ m ∈ overflowThread.messages, m.content = "51")) := by
  constructor
  · intro t role content ts hpos
    unfold add_message
    constructor
    · simp only
      split
      · rename_i hgt
        unfold pySliceLast
        rw [if_neg (by omega), List.length_drop]
        simp only [List.length_append, List.length_cons, List.length_nil] at hgt ⊢
        omega
      · rename_i hle
        simp only [List.length_append, List.length_cons, List.length_nil] at hle ⊢
        omega
    · simp only
      split
      · exact pySliceLast_suffix _ _
      · exact List.suffix_rfl
  · refine ⟨by decide, by decide, by decide⟩

/-- Witness for `add_message_bounded_fifo` at a concrete thread and message. -/
theorem add_message_bounded_fifo_witness :
    (add_message (newConversationThread "Z" 0) "user" "hello" 1).messages.length ≤ 50 ∧
      (add_message (newConversationThread "Z" 0) "user" "hello" 1).messages <:+
        (newConversationThread "Z" 0).messages ++ [⟨"user", "hello", 1⟩] :=
  add_message_bounded_fifo.1 (newConversationThread "Z" 0) "user" "hello" 1 (by decide)

lemma nodup_keys_unique {l : List (String × ConversationThread)} {k : String}
    {a b : ConversationThread} (hnd : (l.map Prod.fst).Nodup)
    (ha : (k, a) ∈ l) (hb : (k, b) ∈ l) : a = b := by
  induction l with
  | nil => cases ha
  | cons hd tl ih =>
      simp only [List.map_cons, List.nodup_cons] at hnd
      rcases List.mem_cons.1 ha with rfl | ha'
      · rcases List.mem_cons.1 hb with hb0 | hb'
        · exact congrArg Prod.snd hb0.symm
        · exact absurd (List.mem_map.2 ⟨(k, b), hb', rfl⟩) hnd.1
      · rcases List.mem_cons.1 hb with rfl | hb'
        · exact absurd (List.mem_map.2 ⟨(k, a), ha', rfl⟩) hnd.1
        · exact ih hnd.2 ha' hb'

/-- C9: on a thread dict with (necessarily) unique zone keys, `cleanup_old_threads`
keeps exactly the entries whose `last_activity` age is not strictly greater than
`max_age_hours * 3600` seconds: a thread is removed iff it is strictly older than
the ttl, and no thread at or newer than the bound is removed. -/
theorem cleanup_old_threads_exact
    (threads : List (String × ConversationThread)) (now ttl : ℚ)
    (zone : String) (t : ConversationThread)
    (hnd : (threads.map Prod.fst).Nodup) :
    (zone, t) ∈ cleanup_old_threads threads now ttl ↔
      ((zone, t) ∈ threads ∧ ¬(now - t.last_activity > ttl * 3600)) := by
  unfold cleanup_old_threads
  simp only [List.mem_filter, Bool.not_eq_true', decide_eq_false_iff_not]
  constructor
  · rintro ⟨hmem, hrem⟩
    refine ⟨hmem, fun hold => hrem ?_⟩
    exact List.mem_map.2 ⟨(zone, t), List.mem_filter.2 ⟨hmem, by simpa using hold⟩, rfl⟩
  · rintro ⟨hmem, hnew⟩
    refine ⟨hmem, fun hz => ?_⟩
    obtain ⟨⟨z', t'⟩, hz', rfl⟩ := List.mem_map.1 hz
    rcases List.mem_filter.1 hz' with ⟨ht', hcond⟩
    have heq : t' = t := nodup_keys_unique hnd ht' hmem
    subst heq
    exact hnew (by simpa using hcond)

/-- Witness for `cleanup_old_threads_exact`: with `now = 90000` and the default
24-hour ttl, a thread last active at time 0 (age 90000 s > 86400 s) is removed
while one last active at 10000 (age 80000 s) is kept. -/
theorem cleanup_old_threads_exact_witness :
    (("b", newConversationThread "b" 10000) ∈
        cleanup_old_threads
          [("a", newConversationThread "a" 0), ("b", newConversationThread "b" 10000)] 90000 24 ↔
      (("b", newConversationThread "b" 10000) ∈
          [("a", newConversationThread "a" 0), ("b", newConversationThread "b" 10000)] ∧
        ¬((90000 : ℚ) - (newConversationThread "b" 10000).last_activity > 24 * 3600))) :=
  cleanup_old_threads_exact _ 90000 24 "b" (newConversationThread "b" 10000) (by decide)

/-! ## The suitability ranker (`ai_model/app/app.py`, `get_top_crop_recommendations`) -/

/-- Probability → percentage, clamped into `[0, 100]` (`pct = prob * 100` then
the two clamping branches). -/
def clampPct (prob : ℚ) : ℚ :=
  let pct := prob * 100
  if pct < 0 then 0 else if pct > 100 then 100 else pct

/-- One Python dict assignment `d[k] = v`: overwrite in place if the key
exists, else append at the end (insertion order). -/
def dictAssign (d : List (String × ℚ)) (k : String) (v : ℚ) : List (String × ℚ) :=
  if d.any (fun kv => kv.1 == k) then
    d.map (fun kv => if kv.1 == k then (k, v) else kv)
  else d ++ [(k, v)]

/-- The `predictions_percent` dict: for each `(crop_name, prob)` pair of
`zip(crop_list, sample_proba)`, store the clamped percentage under the crop
name. -/
def predictions_percent (crop_list : List String) (sample_proba : List ℚ) :
    List (String × ℚ) :=
  (crop_list.zip sample_proba).foldl (fun d cp => dictAssign d cp.1 (clampPct cp.2)) []

/-- The comparison used by `sorted(..., key=lambda kv: kv[1], reverse=True)`:
descending by value; with `List.insertionSort` this keeps elements with equal
values in their original (dict insertion) order, exactly like Python's stable
sort with `reverse=True`. -/
def descBySnd (a b : String × ℚ) : Prop := b.2 ≤ a.2

instance : DecidableRel descBySnd := fun a b => inferInstanceAs (Decidable (b.2 ≤ a.2))

/-- `sorted_items` of `get_top_crop_recommendations`. -/
def sorted_items (crop_list : List String) (sample_proba : List ℚ) :
    List (String × ℚ) :=
  List.insertionSort descBySnd (predictions_percent crop_list sample_proba)

/-- One entry of `top_recommendations`. -/
structure CropSuitability where
  crop : String
  score_percent : ℚ
  rank : ℕ
deriving DecidableEq

/-- `top_three` of `get_top_crop_recommendations`:
`enumerate(sorted_items[:3], start=1)` with the rounded percentage. -/
def top_recommendations (crop_list : List String) (sample_proba : List ℚ) :
    List CropSuitability :=
  ((sorted_items crop_list sample_proba).take 3).enum.map
    (fun p => { crop := p.2.1, score_percent := round1 p.2.2, rank := p.1 + 1 })

/-! ## The backend selection (`ai_client.py`, `_generate_local_recommendation`) -/

/-- Ascending comparison on `(index, probability)` pairs; `List.insertionSort`
with it models NumPy's argsort as observed on these inputs (stable ascending). -/
def ascBySnd (a b : ℕ × ℚ) : Prop := a.2 ≤ b.2

instance : DecidableRel ascBySnd := fun a b => inferInstanceAs (Decidable (a.2 ≤ b.2))

/-- `np.argsort(probabilities)[::-1][:3]`: indices sorted ascending by
probability, then reversed, then truncated to the top three. -/
def top_3_indices (probabilities : List ℚ) : List ℕ :=
  (((List.insertionSort ascBySnd probabilities.enum).map Prod.fst).reverse).take 3

/-- The Python exceptions that can escape the backend's recommendation loop. -/
inductive PyError where
  | attributeError
  | indexError
deriving DecidableEq

/-- State of `AIClient` relevant to the recommendation path: whether the model
and scaler loaded, and the (never assigned) `crop_classes` attribute, `none`
standing for an attribute that does not exist on the object. -/
structure AIClient where
  modelLoaded : Bool
  scalerLoaded : Bool
  crop_classes : Option (List String)

/-- `AIClient.__init__`: sets `self.model` / `self.scaler` (both present on
success, both `None` on failure) and never assigns `crop_classes`. -/
def newAIClient (loadOk : Bool) : AIClient :=
  { modelLoaded := loadOk, scalerLoaded := loadOk, crop_classes := none }

/-- The recommendation-building loop of `_generate_local_recommendation`
(lines 631-645): for each selected index, look up `self.crop_classes[idx]` —
an `AttributeError` if the attribute was never assigned, an `IndexError` if the
index is out of range — and afterwards the result dict reads
`recommendations[0]` (an `IndexError` on an empty list). -/
def localRecommendationCrops (crop_classes : Option (List String))
    (probabilities : List ℚ) : Except PyError (List String) := do
  let recs ← (top_3_indices probabilities).foldlM
    (fun acc idx =>
      match crop_classes with
      | none => Except.error PyError.attributeError
      | some cl =>
          match cl[idx]? with
          | some c => Except.ok (acc ++ [c])
          | none => Except.error PyError.indexError)
    ([] : List String)
  match recs with
  | [] => Except.error PyError.indexError
  | _ => Except.ok recs

/-- The observable outcome of `generate_crop_recommendation`: either the local
classifier-backed result or the mock recommendation (whose randomized body is
irrelevant to the claims and left abstract). -/
inductive GenResult where
  | localResult (crops : List String)
  | mockResult
deriving DecidableEq

/-- `generate_crop_recommendation` composed with `_generate_local_recommendation`:
the local path runs only when model and scaler are loaded, and any exception in
it is caught and replaced by the mock recommendation. -/
def generate_crop_recommendation (client : AIClient) (probabilities : List ℚ) :
    GenResult :=
  if client.modelLoaded && client.scalerLoaded then
    match localRecommendationCrops client.crop_classes probabilities with
    | Except.ok recs => GenResult.localResult recs
    | Except.error _ => GenResult.mockResult
  else GenResult.mockResult

/-! ## Ranker lemmas and theorems (C1, C3, C10) -/

lemma clampPct_nonneg (p : ℚ) : 0 ≤ clampPct p := by
  simp only [clampPct]
  split_ifs with h1 h2
  · exact le_refl 0
  · norm_num
  · linarith [not_lt.1 h1]

lemma clampPct_le (p : ℚ) : clampPct p ≤ 100 := by
  simp only [clampPct]
  split_ifs with h1 h2
  · norm_num
  · exact le_refl 100
  · linarith [not_lt.1 h2]

lemma mem_dictAssign {d : List (String × ℚ)} {k : String} {v : ℚ} {kv : String × ℚ}
    (h : kv ∈ dictAssign d k v) : kv ∈ d ∨ kv = (k, v) := by
  unfold dictAssign at h
  split at h
  · rcases List.mem_map.1 h with ⟨kv₀, h₀, heq⟩
    by_cases hk : (kv₀.1 == k) = true
    · right
      rw [if_pos hk] at heq
      exact heq.symm
    · left
      rw [if_neg hk] at heq
      exact heq ▸ h₀
  · rcases List.mem_append.1 h with h' | h'
    · exact Or.inl h'
    · exact Or.inr (List.mem_singleton.1 h')

lemma foldl_dictAssign_bounds :
    ∀ (l : List (String × ℚ)) (d : List (String × ℚ)),
      (∀ kv ∈ d, 0 ≤ kv.2 ∧ kv.2 ≤ 100) →
      ∀ kv ∈ l.foldl (fun d cp => dictAssign d cp.1 (clampPct cp.2)) d,
        0 ≤ kv.2 ∧ kv.2 ≤ 100 := by
  intro l
  induction l with
  | nil => intro d hd kv hkv; exact hd kv hkv
  | cons hd tl ih =>
      intro d hdinv kv hkv
      refine ih (dictAssign d hd.1 (clampPct hd.2)) ?_ kv (by simpa using hkv)
      intro kv' hkv'
      rcases mem_dictAssign hkv' with h' | h'
      · exact hdinv kv' h'
      · rw [h']
        exact ⟨clampPct_nonneg hd.2, clampPct_le hd.2⟩

lemma predictions_percent_bounds (crop_list : List String) (sample_proba : List ℚ) :
    ∀ kv ∈ predictions_percent crop_list sample_proba, 0 ≤ kv.2 ∧ kv.2 ≤ 100 :=
  foldl_dictAssign_bounds _ [] (by intro kv h; cases h)

lemma round1_bounds {q : ℚ} (h0 : 0 ≤ q) (h1 : q ≤ 100) :
    0 ≤ round1 q ∧ round1 q ≤ 100 := by
  have hmono : ∀ {a b : ℚ}, a ≤ b → round a ≤ round b := by
    intro a b hab
    rw [round_eq, round_eq]
    exact Int.floor_le_floor (by linarith)
  have hlo : (0 : ℤ) ≤ round (q * 10) := by
    have := hmono (a := 0) (b := q * 10) (by linarith)
    rwa [round_zero] at this
  have hhi : round (q * 10) ≤ 1000 := by
    have := hmono (a := q * 10) (b := 1000) (by linarith)
    rwa [show ((1000 : ℚ)) = ((1000 : ℤ) : ℚ) by norm_num, round_intCast] at this
  constructor
  · unfold round1
    have : (0 : ℚ) ≤ (round (q * 10) : ℚ) := by exact_mod_cast hlo
    linarith
  · unfold round1
    have : ((round (q * 10) : ℚ)) ≤ 1000 := by exact_mod_cast hhi
    linarith

lemma enumFrom_map_rank (n : ℕ) :
    ∀ (l : List α), (List.enumFrom n l).map (fun p => p.1 + 1) = List.range' (n + 1) l.length := by
  intro l
  induction l generalizing n with
  | nil => simp [List.range']
  | cons x xs ih => simp [List.enumFrom, List.range', ih (n + 1)]

lemma enum_map_rank (l : List α) :
    l.enum.map (fun p => p.1 + 1) = List.range' 1 l.length := by
  simpa using enumFrom_map_rank 0 l

/-- C1: every `score_percent` produced by the ranker lies in `[0, 100]`, and
the ranks of the selected top crops are the contiguous sequence starting at 1;
in particular whenever at least three classes are present (the default `k = 3`
selection is full) the ranks are exactly `[1, 2, 3]`. -/
theorem top_recommendations_bounds_and_ranks (crop_list : List String) (sample_proba : List ℚ) :
    (∀ r ∈ top_recommendations crop_list sample_proba,
        0 ≤ r.score_percent ∧ r.score_percent ≤ 100) ∧
    (top_recommendations crop_list sample_proba).map CropSuitability.rank =
      List.range' 1 (min 3 (predictions_percent crop_list sample_proba).length) ∧
    (3 ≤ (predictions_percent crop_list sample_proba).length →
      (top_recommendations crop_list sample_proba).map CropSuitability.rank = [1, 2, 3]) := by
  have hranks : (top_recommendations crop_list sample_proba).map CropSuitability.rank =
      List.range' 1 (min 3 (predictions_percent crop_list sample_proba).length) := by
    unfold top_recommendations
    rw [List.map_map]
    have : (CropSuitability.rank ∘ fun p : ℕ × (String × ℚ) =>
        CropSuitability.mk p.2.1 (round1 p.2.2) (p.1 + 1)) = fun p => p.1 + 1 := rfl
    rw [this, enum_map_rank, List.length_take]
    unfold sorted_items
    rw [List.length_insertionSort]
  refine ⟨?_, hranks, ?_⟩
  · intro r hr
    unfold top_recommendations at hr
    rcases List.mem_map.1 hr with ⟨p, hp, hr'⟩
    rcases List.mem_enumFrom hp with ⟨-, -, hx⟩
    have hmem : p.2 ∈ (sorted_items crop_list sample_proba).take 3 := by
      rw [hx]
      exact List.getElem_mem _
    have hmem' : p.2 ∈ sorted_items crop_list sample_proba := List.take_subset _ _ hmem
    have hbounds := predictions_percent_bounds crop_list sample_proba p.2
      ((List.mem_insertionSort descBySnd).1 hmem')
    have := round1_bounds hbounds.1 hbounds.2
    rw [← hr']
    exact this
  · intro h3
    rw [hranks, min_eq_left h3]
    decide

/-- Witness for `top_recommendations_bounds_and_ranks`: with three crops the
ranks are exactly `[1, 2, 3]`. -/
theorem top_recommendations_bounds_and_ranks_witness :
    (top_recommendations ["rice", "wheat", "maize"] [6/10, 3/10, 1/10]).map
        CropSuitability.rank = [1, 2, 3] :=
  (top_recommendations_bounds_and_ranks ["rice", "wheat", "maize"] [6/10, 3/10, 1/10]).2.2
    (by decide)

/-- C3 counterexample: with two classes of equal probability, the backend's
`np.argsort(probabilities)[::-1][:3]` selection puts class index 1 first —
the reverse of the original class order — so the claim that both cited
implementations break ties by original class order is false. -/
theorem tie_break_counterexample :
    top_3_indices [1/2, 1/2] = [1, 0] ∧ top_3_indices [1/2, 1/2] ≠ [0, 1] := by
  have h : top_3_indices [1/2, 1/2] = [1, 0] := by
    norm_num [top_3_indices, List.insertionSort, List.orderedInsert, ascBySnd,
      List.enum, List.enumFrom]
  exact ⟨h, by rw [h]; decide⟩

/-- C3 (amended): the app-side ranker `get_top_crop_recommendations` is a
stable descending sort — whenever entry `a` precedes entry `b` in the
`predictions_percent` dict and the two percentages are equal, `a` still
precedes `b` in `sorted_items` — while the backend's
`_generate_local_recommendation` resolves the same tie in reverse class
order (its reversed ascending argsort picks the later index first). -/
theorem stable_tie_break (crop_list : List String) (sample_proba : List ℚ)
    (l₁ l₂ l₃ : List (String × ℚ)) (a b : String × ℚ)
    (hsplit : predictions_percent crop_list sample_proba = l₁ ++ a :: (l₂ ++ b :: l₃))
    (htie : a.2 = b.2) :
    [a, b].Sublist (sorted_items crop_list sample_proba) ∧
    top_3_indices [1/2, 1/2] = [1, 0] := by
  constructor
  · have hab : descBySnd a b := le_of_eq htie.symm
    have hsub : [a, b].Sublist (predictions_percent crop_list sample_proba) := by
      rw [hsplit]
      have h1 : [a, b].Sublist (a :: (l₂ ++ b :: l₃)) := by
        refine List.Sublist.cons₂ a ?_
        exact List.Sublist.trans (List.Sublist.cons₂ b (List.nil_sublist l₃))
          (List.sublist_append_right l₂ (b :: l₃))
      exact List.Sublist.append (List.nil_sublist l₁) h1
    exact List.pair_sublist_insertionSort hab hsub
  · norm_num [top_3_indices, List.insertionSort, List.orderedInsert, ascBySnd,
      List.enum, List.enumFrom]

/-- Witness for `stable_tie_break`: two crops with equal clamped percentage 50
keep their original order in `sorted_items`. -/
theorem stable_tie_break_witness :
    [("a", (50 : ℚ)), ("b", (50 : ℚ))].Sublist (sorted_items ["a", "b"] [1/2, 1/2]) ∧
      top_3_indices [1/2, 1/2] = [1, 0] :=
  stable_tie_break ["a", "b"] [1/2, 1/2] [] [] [] ("a", 50) ("b", 50)
    (by norm_num [predictions_percent, dictAssign, clampPct]
        decide) rfl

/-- C10: whenever the model and scaler loaded, the backend's local
recommendation path fails with an `AttributeError` at the `self.crop_classes[idx]`
lookup (the attribute is never assigned in `AIClient`), the exception is caught,
and `generate_crop_recommendation` returns the mock recommendation — the
classifier-backed branch never produces the returned result. -/
theorem local_branch_always_falls_back_to_mock (probabilities : List ℚ)
    (h : probabilities ≠ []) :
    localRecommendationCrops (newAIClient true).crop_classes probabilities =
        Except.error PyError.attributeError ∧
      generate_crop_recommendation (newAIClient true) probabilities = GenResult.mockResult := by
  have hlen : (top_3_indices probabilities).length = min 3 probabilities.length := by
    simp [top_3_indices, List.length_take, List.length_reverse, List.length_map,
      List.length_insertionSort, List.enum_length]
  obtain ⟨i, tl, hcons⟩ : ∃ i tl, top_3_indices probabilities = i :: tl := by
    cases h3 : top_3_indices probabilities with
    | nil =>
        exfalso
        rw [h3] at hlen
        have : 0 < probabilities.length := List.length_pos.2 h
        simp at hlen
        omega
    | cons i tl => exact ⟨i, tl, rfl⟩
  have hlocal : localRecommendationCrops (newAIClient true).crop_classes probabilities =
      Except.error PyError.attributeError := by
    show localRecommendationCrops none probabilities = Except.error PyError.attributeError
    unfold localRecommendationCrops
    rw [hcons, List.foldlM_cons]
    rfl
  refine ⟨hlocal, ?_⟩
  unfold generate_crop_recommendation
  rw [hlocal]
  rfl

/-- Witness for `local_branch_always_falls_back_to_mock` at a concrete
probability vector. -/
theorem local_branch_always_falls_back_to_mock_witness :
    localRecommendationCrops (newAIClient true).crop_classes [1/2, 1/4, 1/4] =
        Except.error PyError.attributeError ∧
      generate_crop_recommendation (newAIClient true) [1/2, 1/4, 1/4] =
        GenResult.mockResult :=
  local_branch_always_falls_back_to_mock [1/2, 1/4, 1/4] (by decide)

/-! ## Data quality (`_assess_data_quality`, identical in `ai_client.py` and
`iot_service.py`) -/

/-- The sensor fields inspected by `_assess_data_quality`; a field that is
absent from the dict and a field stored as `None` are treated alike and both
become `none`. -/
structure SensorDataQ where
  nitrogen : Option ℚ
  phosphorus : Option ℚ
  potassium : Option ℚ
  ph : Option ℚ
  soil_moisture : Option ℚ

/-- `_assess_data_quality`: start at 100, subtract 20 per missing critical
field; then, guarded by Python truthiness (`if sensor_data['ph']:` — so a
present value of `0.0` skips the check), subtract 15 when pH is outside
`[3.0, 11.0]` and 15 when soil moisture is outside `[0, 100]`; floor at 0 and
grade `A`/`B`/`C`/`D` at 90/70/50. -/
def assess_data_quality (sensor_data : SensorDataQ) : ℤ × String :=
  let quality_score : ℤ :=
    [sensor_data.nitrogen, sensor_data.phosphorus, sensor_data.potassium,
      sensor_data.ph, sensor_data.soil_moisture].foldl
      (fun s v => if v = none then s - 20 else s) 100
  let quality_score :=
    match sensor_data.ph with
    | some v => if v ≠ 0 ∧ ¬(3 ≤ v ∧ v ≤ 11) then quality_score - 15 else quality_score
    | none => quality_score
  let quality_score :=
    match sensor_data.soil_moisture with
    | some v => if v ≠ 0 ∧ ¬(0 ≤ v ∧ v ≤ 100) then quality_score - 15 else quality_score
    | none => quality_score
  let quality_score := max 0 quality_score
  (quality_score,
    if quality_score ≥ 90 then "A"
    else if quality_score ≥ 70 then "B"
    else if quality_score ≥ 50 then "C" else "D")

/-- Spec-side form of the amended claim: number of missing critical fields. -/
def missing_critical_count (sensor_data : SensorDataQ) : ℤ :=
  ([sensor_data.nitrogen, sensor_data.phosphorus, sensor_data.potassium,
      sensor_data.ph, sensor_data.soil_moisture].countP (fun v => v == none) : ℤ)

/-- Spec-side form of the amended claim: 15 when pH is present, nonzero and
outside `[3.0, 11.0]`, else 0. -/
def ph_range_penalty (sensor_data : SensorDataQ) : ℤ :=
  match sensor_data.ph with
  | some v => if v ≠ 0 ∧ ¬(3 ≤ v ∧ v ≤ 11) then 15 else 0
  | none => 0

/-- Spec-side form of the amended claim: 15 when soil moisture is present,
nonzero and outside `[0, 100]`, else 0. -/
def moisture_range_penalty (sensor_data : SensorDataQ) : ℤ :=
  match sensor_data.soil_moisture with
  | some v => if v ≠ 0 ∧ ¬(0 ≤ v ∧ v ≤ 100) then 15 else 0
  | none => 0

/-- Spec-side grade mapping `≥90 → A, ≥70 → B, ≥50 → C, else D`. -/
def grade_of (score : ℤ) : String :=
  if 90 ≤ score then "A" else if 70 ≤ score then "B" else if 50 ≤ score then "C" else "D"

/-- C4 counterexample: pH stored as `0.0` is present and outside `[3.0, 11.0]`,
so the claim demands `100 - 15 = 85` and grade `B`; the code's truthiness guard
skips the deduction and returns score 100, grade `A`. -/
theorem data_quality_ph_zero_counterexample :
    assess_data_quality ⟨some 50, some 50, some 50, some 0, some 40⟩ = (100, "A") ∧
      ((100 : ℤ), "A") ≠ ((85 : ℤ), "B") := by
  constructor
  · decide
  · decide

/-- C4 (amended): the quality score is 100 minus 20 per missing critical field,
minus 15 when pH is present, nonzero and outside `[3.0, 11.0]`, minus 15 when
soil moisture is present, nonzero and outside `[0, 100]`, floored at 0; the
grade is `A`/`B`/`C`/`D` at thresholds 90/70/50; and pH = 12 with all critical
fields present (moisture in range) yields score 85 and grade `B`. -/
theorem assess_data_quality_amended (sensor_data : SensorDataQ) :
    (assess_data_quality sensor_data).1 =
        max 0 (100 - 20 * missing_critical_count sensor_data -
          ph_range_penalty sensor_data - moisture_range_penalty sensor_data) ∧
    (assess_data_quality sensor_data).2 = grade_of (assess_data_quality sensor_data).1 ∧
    assess_data_quality ⟨some 50, some 50, some 50, some 12, some 40⟩ = (85, "B") := by
  have hfold : ∀ (l : List (Option ℚ)) (init : ℤ),
      l.foldl (fun s v => if v = none then s - 20 else s) init =
        init - 20 * (l.countP (fun v => v == none) : ℤ) := by
    intro l
    induction l with
    | nil => intro init; simp
    | cons a tl ih =>
        intro init
        by_cases ha : a = none
        · simp only [List.foldl_cons, if_pos ha, ih, List.countP_cons, ha,
            beq_self_eq_true, if_true]
          push_cast
          omega
        · simp only [List.foldl_cons, if_neg ha, ih, List.countP_cons]
          have : (a == none) = false := by simpa using ha
          simp [this]
  refine ⟨?_, ?_, by decide⟩
  · obtain ⟨n, p, k, ph, mo⟩ := sensor_data
    cases ph <;> cases mo <;>
      simp only [assess_data_quality, missing_critical_count, ph_range_penalty,
        moisture_range_penalty, hfold] <;>
      first
      | (split_ifs <;> omega)
      | omega
  · obtain ⟨n, p, k, ph, mo⟩ := sensor_data
    cases ph <;> cases mo <;>
      simp only [assess_data_quality, grade_of, ge_iff_le, hfold]

/-! ## Zone aggregation (`recommendation_service.py`, `_get_aggregated_zone_data`)
and per-field averages (`iot_service.py`, `get_zone_sensor_summary`) -/

/-- One stored sensor reading; each numeric column is nullable. -/
structure SensorReadingR where
  nitrogen : Option ℚ
  phosphorus : Option ℚ
  potassium : Option ℚ
  ph : Option ℚ
  soil_moisture : Option ℚ
  temperature : Option ℚ
  humidity : Option ℚ
  rainfall : Option ℚ

/-- The aggregated feature dict of `_get_aggregated_zone_data`. -/
structure AggVec where
  nitrogen : ℚ
  phosphorus : ℚ
  potassium : ℚ
  ph : ℚ
  soil_moisture : ℚ
  temperature : ℚ
  humidity : ℚ
  rainfall : ℚ
deriving DecidableEq

/-- The default dict returned when no sensor data exists for the window. -/
def default_zone_data : AggVec :=
  { nitrogen := 50, phosphorus := 50, potassium := 50, ph := 6.5,
    soil_moisture := 30, temperature := 25, humidity := 70, rainfall := 100 }

/-- `if data.f is not None: acc += data.f` for one field. -/
def addOpt (s : ℚ) (v : Option ℚ) : ℚ :=
  match v with
  | some x => s + x
  | none => s

/-- The accumulation loop of `_get_aggregated_zone_data`. -/
def aggStep (acc : AggVec) (d : SensorReadingR) : AggVec :=
  { nitrogen := addOpt acc.nitrogen d.nitrogen,
    phosphorus := addOpt acc.phosphorus d.phosphorus,
    potassium := addOpt acc.potassium d.potassium,
    ph := addOpt acc.ph d.ph,
    soil_moisture := addOpt acc.soil_moisture d.soil_moisture,
    temperature := addOpt acc.temperature d.temperature,
    humidity := addOpt acc.humidity d.humidity,
    rainfall := addOpt acc.rainfall d.rainfall }

/-- `if count > 0: aggregated[key] = round(aggregated[key] / count, 2)`. -/
def divRound (x count : ℚ) : ℚ := if 0 < count then round2 (x / count) else x

/-- `RecommendationService._get_aggregated_zone_data`: default dict on an empty
window; otherwise sum each field over its non-null values and divide every
field by the total number of readings. -/
def get_aggregated_zone_data (sensor_data : List SensorReadingR) : AggVec :=
  if sensor_data.isEmpty then default_zone_data
  else
    let aggregated := sensor_data.foldl aggStep
      { nitrogen := 0, phosphorus := 0, potassium := 0, ph := 0, soil_moisture := 0,
        temperature := 0, humidity := 0, rainfall := 0 }
    let count : ℚ := sensor_data.length
    { nitrogen := divRound aggregated.nitrogen count,
      phosphorus := divRound aggregated.phosphorus count,
      potassium := divRound aggregated.potassium count,
      ph := divRound aggregated.ph count,
      soil_moisture := divRound aggregated.soil_moisture count,
      temperature := divRound aggregated.temperature count,
      humidity := divRound aggregated.humidity count,
      rainfall := divRound aggregated.rainfall count }

/-- `IoTService.get_zone_sensor_summary`, per metric: collect the non-null
values, average and round when any exist, else record `None`. -/
def zone_summary_average (f : SensorReadingR → Option ℚ) (sensor_data : List SensorReadingR) :
    Option ℚ :=
  let values := sensor_data.filterMap f
  if values.isEmpty then none else some (round2 (values.sum / values.length))

/-- C7 counterexample: on an empty reading set the aggregation returns the
default feature dict, whose nitrogen entry is 50, not an all-zero vector; no
`no_data` tag exists anywhere in the returned value. -/
theorem empty_window_not_all_zero :
    (get_aggregated_zone_data []).nitrogen = 50 ∧ (50 : ℚ) ≠ 0 :=
  ⟨rfl, by norm_num⟩

/-- C7 (amended): an empty reading window makes `_get_aggregated_zone_data`
return the fixed default feature dict (nitrogen 50, phosphorus 50, potassium
50, pH 6.5, soil moisture 30, temperature 25, humidity 70, rainfall 100); the
result carries no `no_data` marker, so the caller cannot distinguish an empty
window from real data that happens to equal the defaults. -/
theorem empty_window_returns_defaults :
    get_aggregated_zone_data [] =
      { nitrogen := 50, phosphorus := 50, potassium := 50, ph := 6.5,
        soil_moisture := 30, temperature := 25, humidity := 70, rainfall := 100 } := rfl

lemma foldl_aggStep_field (proj : AggVec → ℚ) (projR : SensorReadingR → Option ℚ)
    (hstep : ∀ acc d, proj (aggStep acc d) = addOpt (proj acc) (projR d)) :
    ∀ (rs : List SensorReadingR) (init : AggVec),
      proj (rs.foldl aggStep init) = proj init + (rs.filterMap projR).sum := by
  intro rs
  induction rs with
  | nil => intro init; simp
  | cons d tl ih =>
      intro init
      rw [List.foldl_cons, ih, hstep]
      cases hd : projR d <;> simp [addOpt, hd, List.filterMap_cons, add_assoc]

/-- C8 (amended): for a non-empty window, `IoTService.get_zone_sensor_summary`
averages each field over exactly its present values (null entries affect
neither sum nor divisor), whereas `RecommendationService._get_aggregated_zone_data`
sums each field over its present values but divides every field by the total
number of readings in the window, so null entries do lower that mean. -/
theorem aggregated_mean_divisors (rs : List SensorReadingR) (h : rs ≠ []) :
    (∀ f : SensorReadingR → Option ℚ,
      zone_summary_average f rs =
        if (rs.filterMap f).isEmpty then none
        else some (round2 ((rs.filterMap f).sum / (rs.filterMap f).length))) ∧
    get_aggregated_zone_data rs =
      { nitrogen := round2 ((rs.filterMap SensorReadingR.nitrogen).sum / rs.length),
        phosphorus := round2 ((rs.filterMap SensorReadingR.phosphorus).sum / rs.length),
        potassium := round2 ((rs.filterMap SensorReadingR.potassium).sum / rs.length),
        ph := round2 ((rs.filterMap SensorReadingR.ph).sum / rs.length),
        soil_moisture := round2 ((rs.filterMap SensorReadingR.soil_moisture).sum / rs.length),
        temperature := round2 ((rs.filterMap SensorReadingR.temperature).sum / rs.length),
        humidity := round2 ((rs.filterMap SensorReadingR.humidity).sum / rs.length),
        rainfall := round2 ((rs.filterMap SensorReadingR.rainfall).sum / rs.length) } := by
  refine ⟨fun f => rfl, ?_⟩
  have hlen : (0 : ℚ) < (rs.length : ℚ) := by
    exact_mod_cast List.length_pos.2 h
  unfold get_aggregated_zone_data
  rw [if_neg (by simpa [List.isEmpty_iff] using h)]
  simp only [divRound, if_pos hlen]
  rw [AggVec.mk.injEq]
  refine ⟨?_, ?_, ?_, ?_, ?_, ?_, ?_, ?_⟩
  · rw [foldl_aggStep_field AggVec.nitrogen SensorReadingR.nitrogen (fun acc d => rfl)]; simp
  · rw [foldl_aggStep_field AggVec.phosphorus SensorReadingR.phosphorus (fun acc d => rfl)]; simp
  · rw [foldl_aggStep_field AggVec.potassium SensorReadingR.potassium (fun acc d => rfl)]; simp
  · rw [foldl_aggStep_field AggVec.ph SensorReadingR.ph (fun acc d => rfl)]; simp
  · rw [foldl_aggStep_field AggVec.soil_moisture SensorReadingR.soil_moisture
      (fun acc d => rfl)]; simp
  · rw [foldl_aggStep_field AggVec.temperature SensorReadingR.temperature (fun acc d => rfl)]; simp
  · rw [foldl_aggStep_field AggVec.humidity SensorReadingR.humidity (fun acc d => rfl)]; simp
  · rw [foldl_aggStep_field AggVec.rainfall SensorReadingR.rainfall (fun acc d => rfl)]; simp

/-- Witness for `aggregated_mean_divisors` at a two-reading window where only
the first reading carries a nitrogen value. -/
theorem aggregated_mean_divisors_witness :
    get_aggregated_zone_data
        [⟨some 10, none, none, none, none, none, none, none⟩,
         ⟨none, none, none, none, none, none, none, none⟩] =
      { nitrogen := round2 ((([⟨some 10, none, none, none, none, none, none, none⟩,
            ⟨none, none, none, none, none, none, none, none⟩] :
              List SensorReadingR).filterMap SensorReadingR.nitrogen).sum / 2),
        phosphorus := round2 (0 / 2), potassium := round2 (0 / 2), ph := round2 (0 / 2),
        soil_moisture := round2 (0 / 2), temperature := round2 (0 / 2),
        humidity := round2 (0 / 2), rainfall := round2 (0 / 2) } := by
  have h := (aggregated_mean_divisors
    [⟨some 10, none, none, none, none, none, none, none⟩,
     ⟨none, none, none, none, none, none, none, none⟩] (by simp)).2
  simpa using h

/-- C8 counterexample: with one reading holding nitrogen 10 and one null
reading, the claim demands a nitrogen mean of 10 (nulls excluded from the
divisor); the recommendation-service aggregation returns `(10 + 0) / 2 = 5`,
while the IoT summary returns the claimed 10. -/
theorem null_reading_shifts_mean :
    (get_aggregated_zone_data
        [⟨some 10, none, none, none, none, none, none, none⟩,
         ⟨none, none, none, none, none, none, none, none⟩]).nitrogen = 5 ∧
      zone_summary_average SensorReadingR.nitrogen
        [⟨some 10, none, none, none, none, none, none, none⟩,
         ⟨none, none, none, none, none, none, none, none⟩] = some 10 ∧
      (5 : ℚ) ≠ 10 := by
  have h500 : round ((500 : ℚ)) = 500 := by
    rw [show (500 : ℚ) = ((500 : ℤ) : ℚ) by norm_num, round_intCast]
  have h1000 : round ((1000 : ℚ)) = 1000 := by
    rw [show (1000 : ℚ) = ((1000 : ℤ) : ℚ) by norm_num, round_intCast]
  refine ⟨?_, ?_, by norm_num⟩
  · norm_num [get_aggregated_zone_data, aggStep, addOpt, divRound, round2,
      List.filterMap_cons, h500]
  · norm_num [zone_summary_average, round2, List.filterMap_cons, h1000]


/-! ## The deterministic chat responder (`ai_model/app/app.py`,
`generate_agricultural_response` and its handlers) -/

/-- Python `crop_keywords` of `generate_agricultural_response`. -/
def crop_keywords : List String :=
  ["crop", "recommend", "suitability", "plant", "grow", "harvest", "cultivate", "farm", "agriculture", "farming", "yield", "production", "season", "planting", "seeding", "transplant", "germination", "vegetation", "foliage", "roots", "stems", "leaves", "flowers", "fruits", "vegetables", "grains", "legumes", "cereals", "horticulture", "gardening", "orchard", "vineyard", "field", "plot", "acre", "hectare"]

/-- Python `soil_keywords` of `generate_agricultural_response`. -/
def soil_keywords : List String :=
  ["soil", "ph", "moisture", "nutrient", "nitrogen", "phosphorus", "potassium", "fertility", "composition", "texture", "organic matter", "drainage", "erosion", "compaction", "aeration", "microbes", "bacteria", "fungus", "earthworms", "worms", "earth", "ground", "dirt", "substrate", "medium", "growing medium"]

/-- Python `weather_keywords` of `generate_agricultural_response`. -/
def weather_keywords : List String :=
  ["weather", "rainfall", "temperature", "humidity", "forecast", "climate", "atmosphere", "precipitation", "drought", "flood", "storm", "wind", "breeze", "sunshine", "solar", "radiation", "evaporation", "transpiration", "dew", "frost", "freeze", "heat", "cold", "warm", "cool", "seasonal", "daily", "hourly", "meteorological", "atmospheric", "environmental", "ambient", "air", "sky", "clouds", "overcast", "clear", "partly cloudy"]

/-- Python `sensor_keywords` of `generate_agricultural_response`. -/
def sensor_keywords : List String :=
  ["sensor", "health", "reading", "data", "monitor", "status", "device", "equipment", "instrument", "probe", "detector", "transmitter", "receiver", "wireless", "wired", "connection", "connectivity", "network", "system", "platform", "dashboard", "interface", "calibration", "accuracy", "precision", "resolution", "range", "threshold", "alert", "alarm", "notification", "maintenance", "troubleshooting", "diagnostic", "analytics", "insights", "trends", "patterns", "anomaly", "outlier"]

/-- Python `water_keywords` of `generate_agricultural_response`. -/
def water_keywords : List String :=
  ["water", "irrigation", "drip", "sprinkler", "flood", "furrow", "subsurface", "overhead", "center pivot", "linear", "manual", "automatic", "schedule", "timing", "duration", "frequency", "amount", "volume", "flow", "rate", "pressure", "head", "efficiency", "uniformity", "distribution", "coverage", "runoff", "drainage", "infiltration", "percolation", "retention", "storage", "reservoir", "tank", "pond", "well", "borehole", "groundwater", "surface water", "rainwater", "harvesting", "collection", "treatment", "filtration", "purification", "quality", "testing", "analysis"]

/-- Python `pest_keywords` of `generate_agricultural_response`. -/
def pest_keywords : List String :=
  ["pest", "disease", "insect", "bug", "worm", "mite", "aphid", "thrips", "whitefly", "spider", "beetle", "caterpillar", "larva", "egg", "nymph", "adult", "fungus", "bacteria", "virus", "pathogen", "infection", "infestation", "outbreak", "epidemic", "control", "management", "prevention", "treatment", "cure", "remedy", "solution", "pesticide", "insecticide", "fungicide", "herbicide", "organic", "natural", "biological", "chemical", "integrated", "IPM", "monitoring", "scouting", "threshold", "action", "intervention", "resistance", "tolerance", "susceptibility", "vulnerability"]

/-- Python `fertilizer_keywords` of `generate_agricultural_response`. -/
def fertilizer_keywords : List String :=
  ["fertilizer", "nutrient", "nitrogen", "phosphorus", "potassium", "NPK", "micronutrient", "trace element", "zinc", "iron", "manganese", "copper", "boron", "molybdenum", "chlorine", "sulfur", "calcium", "magnesium", "organic", "inorganic", "synthetic", "natural", "compost", "manure", "bone meal", "blood meal", "fish emulsion", "seaweed", "kelp", "application", "rate", "timing", "method", "broadcast", "band", "side dress", "foliar", "soil", "root", "uptake", "absorption", "assimilation", "utilization", "efficiency", "loss", "leaching", "volatilization", "denitrification", "fixation", "mineralization", "immobilization"]

/-- Python `machinery_keywords` of `generate_agricultural_response`. -/
def machinery_keywords : List String :=
  ["machinery", "equipment", "tractor", "implement", "plow", "harrow", "cultivator", "planter", "seeder", "sprayer", "spreader", "harvester", "combine", "thresher", "mower", "baler", "loader", "forklift", "trailer", "wagon", "cart", "wheelbarrow", "shovel", "rake", "hoe", "pruner", "shears", "knife", "tool", "attachment", "hydraulic", "pneumatic", "mechanical", "electrical", "electronic", "digital", "smart", "precision", "GPS", "autonomous", "robotic", "automated", "manual", "operation", "maintenance", "repair", "service", "fuel", "energy", "power", "horsepower", "torque", "speed", "gear", "transmission", "engine", "motor"]

/-- Python `market_keywords` of `generate_agricultural_response`. -/
def market_keywords : List String :=
  ["market", "price", "cost", "profit", "revenue", "income", "expense", "budget", "financial", "economic", "commercial", "business", "trade", "export", "import", "supply", "demand", "consumption", "production", "yield", "quality", "grade", "standard", "certification", "organic", "conventional", "premium", "discount", "contract", "agreement", "partnership", "collaboration", "cooperation", "competition", "rival", "competitor", "customer", "consumer", "buyer", "seller", "vendor", "supplier", "distributor", "retailer", "wholesaler", "broker", "agent", "middleman", "intermediary"]

/-- Python `sustainability_keywords` of `generate_agricultural_response`. -/
def sustainability_keywords : List String :=
  ["sustainability", "environmental", "ecological", "green", "organic", "natural", "biodiversity", "conservation", "preservation", "protection", "restoration", "rehabilitation", "regeneration", "renewable", "recyclable", "biodegradable", "compostable", "waste", "reduction", "minimization", "elimination", "pollution", "contamination", "degradation", "erosion", "deforestation", "desertification", "climate change", "global warming", "carbon", "footprint", "emission", "sequestration", "offset", "neutral", "positive", "negative", "impact", "effect", "consequence", "outcome", "result"]

/-- Python `time_keywords` of `generate_agricultural_response`. -/
def time_keywords : List String :=
  ["time", "timing", "schedule", "calendar", "season", "seasonal", "annual", "monthly", "weekly", "daily", "hourly", "moment", "period", "duration", "frequency", "interval", "cycle", "rotation", "succession", "sequence", "order", "priority", "urgency", "deadline", "milestone", "phase", "stage", "step", "process", "procedure", "method", "approach", "strategy", "plan", "scheme", "program", "project", "initiative", "campaign", "operation", "activity", "task", "job", "work", "labor"]

/-- Python `measurement_keywords` of `generate_agricultural_response`. -/
def measurement_keywords : List String :=
  ["measure", "measurement", "data", "value", "number", "quantity", "amount", "size", "dimension", "length", "width", "height", "depth", "area", "volume", "weight", "mass", "density", "concentration", "ratio", "percentage", "proportion", "fraction", "decimal", "integer", "whole", "fractional", "precise", "accurate", "exact", "approximate", "estimate", "guess", "calculation", "computation", "mathematical", "statistical", "analytical", "numerical", "quantitative", "qualitative", "categorical", "nominal", "ordinal", "interval", "ratio"]

/-- Python `general_keywords` of `generate_agricultural_response`. -/
def general_keywords : List String :=
  ["summary", "overview", "status", "condition", "report", "analysis", "assessment", "evaluation", "review", "check", "verify", "confirm", "investigate", "examine", "inspect", "survey", "audit", "inventory", "stock", "supply", "demand", "market", "economics", "cost", "profit", "revenue", "investment", "planning", "strategy", "tactics", "operations", "management", "administration", "coordination", "scheduling", "timing", "calendar", "seasonal", "annual", "monthly", "weekly", "daily"]

/-- Python `help_keywords` of `generate_agricultural_response`. -/
def help_keywords : List String :=
  ["help", "assist", "support", "guide", "explain", "clarify", "understand", "learn", "teach", "instruct", "educate", "inform", "advise", "suggest", "recommend", "propose", "offer", "provide", "give", "share", "show", "demonstrate", "illustrate", "example", "instance", "case", "scenario", "situation", "circumstance", "context", "background", "history", "experience", "knowledge", "expertise", "skill", "ability", "capability", "competence", "proficiency", "mastery"]

/-- Python `exact_greetings` of `generate_agricultural_response`. -/
def exact_greetings : List String :=
  ["hello", "hi", "hey", "start", "begin", "good morning", "good afternoon", "good evening", "greetings", "welcome"]

/-- Health/last-reading record of one sensor, as read with
`sensor_data.get('status')` / `sensor_data.get('last_reading')`. -/
structure SensorInfo where
  status : Option String
  last_reading : Option String

/-- Python `if c: parts.append(...)` — the appended segment, empty when the condition
is false. -/
def seg (c : Bool) (xs : List String) : List String := if c then xs else []

/-- Python `v = d.get(k); if v is not None: parts.append(...)` — the appended
segment, empty when the value is absent. -/
def optSeg (o : Option ℚ) (f : ℚ → List String) : List String :=
  match o with
  | some v => f v
  | none => []

/-- Python `if not response_parts: response_parts.append(s)`. -/
def ensureNonempty (parts : List String) (s : String) : List String :=
  if parts.isEmpty then parts ++ [s] else parts

/-- Rendering of a float with one decimal (`f"{x:.1f}"`); the exact digits are
irrelevant to every claim. -/
def fmt1 (q : ℚ) : String :=
  toString (round (q * 10) / 10) ++ "." ++ toString ((round (q * 10)) % 10).natAbs

/-- The pH bucket text of `_handle_soil_queries`. -/
def phStatusSoil (ph : ℚ) : String :=
  if ph < 6 then "acidic (good for blueberries, potatoes)"
  else if ph < 6.5 then "slightly acidic (good for most crops)"
  else if ph < 7.5 then "neutral (optimal for most crops)"
  else "alkaline (good for asparagus, cabbage)"

/-- The moisture bucket text of `_handle_soil_queries`. -/
def moistureStatusSoil (m : ℚ) : String :=
  if m < 30 then "dry - consider irrigation"
  else if m < 60 then "moderate - adequate for most crops"
  else "wet - monitor for drainage issues"

/-- The nutrient block of `_handle_soil_queries` (runs only when N, P and K
are all present). -/
def npkSoilParts (n p k : Option ℚ) : List String :=
  match n, p, k with
  | some n, some p, some k =>
      ["Nutrient levels: Nitrogen (N): " ++ toString n ++ " ppm, Phosphorus (P): " ++
        toString p ++ " ppm, Potassium (K): " ++ toString k ++ " ppm"]
      ++ seg (decide (n < 50)) ["Nitrogen levels are low - consider adding nitrogen-rich fertilizer"]
      ++ seg (decide (p < 30)) ["Phosphorus levels are low - bone meal or rock phosphate can help"]
      ++ seg (decide (k < 100)) ["Potassium levels are low - wood ash or potassium sulfate can help"]
  | _, _, _ => []

/-- Python `_handle_soil_queries`. -/
def handle_soil_queries (soil_conditions : List (String × ℚ)) (user_message : String) :
    String :=
  if soil_conditions.isEmpty then
    "I don\x27t have current soil data available. Please check your sensor connections or contact your zone administrator."
  else
    let parts : List String :=
      seg (pyIn "ph" user_message)
        (optSeg (dictGet soil_conditions "ph") (fun ph =>
          ["Current soil pH is " ++ fmt1 ph ++ " - " ++ phStatusSoil ph]))
      ++ seg (pyIn "moisture" user_message)
        (optSeg (dictGet soil_conditions "moisture") (fun m =>
          ["Soil moisture is " ++ fmt1 m ++ "% - " ++ moistureStatusSoil m]))
      ++ seg (matchesAny user_message ["nitrogen", "phosphorus", "potassium", "nutrient"])
        (npkSoilParts (dictGet soil_conditions "N") (dictGet soil_conditions "P")
          (dictGet soil_conditions "K"))
    let parts := ensureNonempty parts
      ("Available soil data: " ++
        pyJoin ", " (soil_conditions.map (fun kv => kv.1 ++ ": " ++ toString kv.2)))
    pyJoin " " parts

/-- Python `_summarize_crop_recommendations`. -/
def summarize_crop_recommendations (crop_recommendations : List CropSuitability) : String :=
  if crop_recommendations.isEmpty then "No crop recommendations available."
  else
    let summary := "Crop suitability rankings:\n" ++
      String.join ((crop_recommendations.take 5).enum.map (fun p =>
        toString (p.1 + 1) ++ ". " ++ p.2.crop ++ ": " ++ toString p.2.score_percent ++ "%\n"))
    if crop_recommendations.length > 5 then
      summary ++ "... and " ++ toString (crop_recommendations.length - 5) ++ " more crops analyzed."
    else summary

/-- Python `_handle_crop_queries`. -/
def handle_crop_queries (crop_recommendations : List CropSuitability) (user_message : String) :
    String :=
  if crop_recommendations.isEmpty then
    "I don\x27t have crop recommendations available. Please run a crop analysis first or contact your zone administrator."
  else if pyIn "summary" user_message || pyIn "overview" user_message then
    summarize_crop_recommendations crop_recommendations
  else
    match crop_recommendations.find? (fun cr => pyIn cr.crop.toLower user_message) with
    | some cr =>
        cr.crop ++ " is ranked #" ++ toString cr.rank ++ " with a suitability score of " ++
          toString cr.score_percent ++
          "%. This crop is well-suited for your current soil and climate conditions."
    | none =>
        match crop_recommendations with
        | top :: _ =>
            "Based on current conditions, " ++ top.crop ++ " is your best option with a " ++
              toString top.score_percent ++
              "% suitability score. Would you like me to explain why this crop is recommended or provide details about other options?"
        | [] =>
            "I can help you understand crop recommendations. Ask me about specific crops or request a summary of all recommendations."

/-- The temperature bucket text of `_handle_weather_queries`. -/
def tempStatusWeather (t : ℚ) : String :=
  if t < 10 then "cold - protect sensitive crops"
  else if t < 20 then "cool - good for cool-season crops"
  else if t < 30 then "moderate - optimal for most crops"
  else "hot - provide shade and extra water"

/-- The rainfall bucket text of `_handle_weather_queries`. -/
def rainStatusWeather (r : ℚ) : String :=
  if r < 5 then "light - monitor soil moisture"
  else if r < 20 then "moderate - good for crop growth"
  else "heavy - watch for flooding and disease"

/-- The humidity bucket text of `_handle_weather_queries`. -/
def humidityStatusWeather (h : ℚ) : String :=
  if h < 40 then "low - increase irrigation"
  else if h < 70 then "moderate - good conditions"
  else "high - watch for fungal diseases"

/-- Python `_handle_weather_queries`. -/
def handle_weather_queries (weather_forecast : List (String × ℚ)) (user_message : String) :
    String :=
  if weather_forecast.isEmpty then
    "I don\x27t have current weather data available. Please check your weather station or contact your zone administrator."
  else
    let parts : List String :=
      seg (pyIn "temperature" user_message)
        (optSeg (dictGet weather_forecast "temperature") (fun t =>
          ["Current temperature is " ++ fmt1 t ++ "°C - " ++ tempStatusWeather t]))
      ++ seg (pyIn "rainfall" user_message || pyIn "precipitation" user_message)
        (optSeg (dictGet weather_forecast "rainfall") (fun r =>
          ["Expected rainfall: " ++ fmt1 r ++ " mm - " ++ rainStatusWeather r]))
      ++ seg (pyIn "humidity" user_message)
        (optSeg (dictGet weather_forecast "humidity") (fun h =>
          ["Humidity is " ++ fmt1 h ++ "% - " ++ humidityStatusWeather h]))
    let parts := ensureNonempty parts
      ("Available weather data: " ++
        pyJoin ", " (weather_forecast.map (fun kv => kv.1 ++ ": " ++ toString kv.2)))
    pyJoin " " parts

/-- Python `_handle_sensor_queries`. -/
def handle_sensor_queries (sensor_health : List (String × SensorInfo)) (user_message : String) :
    String :=
  if sensor_health.isEmpty then
    "I don\x27t have sensor health data available. Please check your monitoring system or contact your zone administrator."
  else if pyIn "health" user_message || pyIn "status" user_message then
    let healthy_sensors := (sensor_health.filter (fun s => s.2.status == some "healthy")).length
    let total_sensors := sensor_health.length
    if total_sensors > 0 then
      "Sensor health overview: " ++ toString healthy_sensors ++ "/" ++ toString total_sensors ++
        " sensors are healthy (" ++ fmt1 (((healthy_sensors : ℚ) / (total_sensors : ℚ)) * 100) ++ "%)."
    else "No sensor data available for health assessment."
  else
    match sensor_health.find? (fun st => pyIn st.1.toLower user_message) with
    | some st =>
        st.1 ++ " sensor status: " ++ st.2.status.getD "unknown" ++ ". Last reading: " ++
          st.2.last_reading.getD "N/A"
    | none =>
        "I can help you check sensor status. Ask me about overall sensor health or specific sensor types like soil, weather, or irrigation sensors."

/-- Python `_generate_zone_summary`. -/
def generate_zone_summary (zone_name : String) (soil_conditions : List (String × ℚ))
    (crop_recommendations : List CropSuitability) (weather_forecast : List (String × ℚ))
    (sensor_health : List (String × SensorInfo)) : String :=
  let summary_parts : List String :=
    ["Here\x27s a summary of " ++ zone_name ++ ":"]
    ++ seg (!soil_conditions.isEmpty)
      ["Soil conditions are available and within normal ranges."]
    ++ (match crop_recommendations with
        | top :: _ =>
            ["Top crop recommendation: " ++ top.crop ++ " with " ++
              toString top.score_percent ++ "% suitability."]
        | [] => [])
    ++ seg (!weather_forecast.isEmpty)
      (match dictGet weather_forecast "temperature", dictGet weather_forecast "rainfall" with
        | some t, some r =>
            ["Weather: " ++ fmt1 t ++ "°C with " ++ fmt1 r ++ "mm rainfall expected."]
        | _, _ => [])
    ++ seg (!sensor_health.isEmpty)
      ["Sensors: " ++
        toString (sensor_health.filter (fun s => s.2.status == some "healthy")).length ++ "/" ++
        toString sensor_health.length ++ " are operational."]
  pyJoin " " summary_parts

/-- Python `_handle_water_queries`; the source strings literally contain unformatted
`\x7b\x7d` placeholders (the `.format` call is missing in the Python). -/
def handle_water_queries (soil_conditions weather_forecast : List (String × ℚ))
    (user_message : String) : String :=
  let parts : List String :=
    seg (pyIn "moisture" user_message)
      (optSeg (dictGet soil_conditions "moisture") (fun m =>
        [if m < 30 then
          "Soil moisture is low (\x7b\x7d%) - immediate irrigation recommended. Consider drip irrigation for water efficiency."
         else if m < 60 then
          "Soil moisture is moderate (\x7b\x7d%) - adequate for most crops, but monitor closely."
         else
          "Soil moisture is high (\x7b\x7d%) - reduce irrigation to prevent waterlogging and root diseases."]))
    ++ seg (pyIn "rainfall" user_message)
      (optSeg (dictGet weather_forecast "rainfall") (fun r =>
        [if r < 5 then "Low rainfall expected (\x7b\x7dmm) - supplement with irrigation."
         else if r < 20 then
          "Moderate rainfall expected (\x7b\x7dmm) - should be sufficient for most crops."
         else "Heavy rainfall expected (\x7b\x7dmm) - reduce irrigation, monitor drainage."]))
    ++ seg (pyIn "irrigation" user_message)
      ["Irrigation recommendations: Use drip systems for row crops, sprinklers for field crops, and adjust timing based on soil moisture sensors."]
  let parts := ensureNonempty parts
    "I can help with water management. Ask me about soil moisture, rainfall, irrigation systems, or drainage."
  pyJoin " " parts

/-- Python `_handle_pest_queries`. -/
def handle_pest_queries (soil_conditions weather_forecast : List (String × ℚ))
    (user_message : String) : String :=
  let parts : List String :=
    seg (pyIn "disease" user_message || pyIn "pest" user_message)
      (optSeg (dictGet weather_forecast "humidity") (fun h =>
        seg (decide (h > 70))
          ["High humidity (\x7b\x7d%) increases fungal disease risk. Monitor crops for early symptoms and consider preventive fungicide applications."])
       ++ optSeg (dictGet weather_forecast "temperature") (fun t =>
        seg (decide (t > 25))
          ["Warm temperatures (\x7b\x7d°C) favor insect pest development. Implement regular scouting and consider integrated pest management strategies."]))
    ++ seg (pyIn "soil" user_message && pyIn "pest" user_message)
      (optSeg (dictGet soil_conditions "ph") (fun ph =>
        if ph < 6 then
          ["Acidic soil (pH \x7b\x7d) can increase susceptibility to certain diseases. Consider lime application to raise pH."]
        else if ph > 7.5 then
          ["Alkaline soil (pH \x7b\x7d) may reduce nutrient availability, making plants more vulnerable to pests."]
        else []))
  let parts := ensureNonempty parts
    "Pest management strategies: Regular monitoring, crop rotation, resistant varieties, and integrated pest management (IPM) are key to sustainable pest control."
  pyJoin " " parts

/-- The NPK block of `_handle_fertilizer_queries` (runs only when N, P and K
are all present). -/
def npkFertilizerParts (n p k : Option ℚ) : List String :=
  match n, p, k with
  | some n, some p, some k =>
      ["Current NPK levels: N=" ++ toString n ++ " ppm, P=" ++ toString p ++ " ppm, K=" ++
        toString k ++ " ppm"]
      ++ (if n < 50 then
            ["Nitrogen is low - apply 50-100 kg/ha of nitrogen fertilizer. Consider split applications for better efficiency."]
          else if n > 200 then
            ["Nitrogen is high - reduce applications to prevent leaching and environmental pollution."]
          else [])
      ++ (if p < 30 then
            ["Phosphorus is low - apply 40-80 kg/ha P2O5. Bone meal or rock phosphate are good organic options."]
          else if p > 100 then
            ["Phosphorus is adequate - maintain current levels with maintenance applications."]
          else [])
      ++ (if k < 100 then
            ["Potassium is low - apply 60-120 kg/ha K2O. Wood ash or potassium sulfate are effective sources."]
          else if k > 300 then
            ["Potassium is high - reduce applications to avoid luxury consumption."]
          else [])
  | _, _, _ => []

/-- Python `_handle_fertilizer_queries`. -/
def handle_fertilizer_queries (soil_conditions : List (String × ℚ)) (user_message : String) :
    String :=
  let parts : List String :=
    seg (matchesAny user_message ["nitrogen", "phosphorus", "potassium", "NPK"])
      (npkFertilizerParts (dictGet soil_conditions "N") (dictGet soil_conditions "P")
        (dictGet soil_conditions "K"))
    ++ seg (pyIn "timing" user_message || pyIn "when" user_message)
      ["Fertilizer timing: Apply nitrogen in split doses during growing season, phosphorus at planting, and potassium based on crop removal rates."]
  let parts := ensureNonempty parts
    "Fertilizer management: Soil testing guides application rates, timing affects efficiency, and organic options improve soil health long-term."
  pyJoin " " parts

/-- Python `_handle_machinery_queries`. -/
def handle_machinery_queries (user_message : String) : String :=
  if pyIn "tractor" user_message then
    "Tractor operations: Ensure proper ballasting for field work, maintain tire pressure for soil compaction control, and use appropriate implements for your soil type."
  else if pyIn "harvester" user_message || pyIn "harvest" user_message then
    "Harvesting equipment: Calibrate for optimal yield, adjust settings for crop conditions, and maintain sharp cutting edges for clean harvests."
  else if pyIn "irrigation" user_message && pyIn "equipment" user_message then
    "Irrigation equipment: Regular maintenance prevents breakdowns, proper pressure ensures uniform water distribution, and automation saves labor and water."
  else
    "Machinery management: Regular maintenance schedules, proper operation training, and appropriate equipment selection are key to efficient farm operations."

/-- Python `_handle_market_queries`. -/
def handle_market_queries (crop_recommendations : List CropSuitability) (user_message : String) :
    String :=
  let parts : List String :=
    seg (!crop_recommendations.isEmpty && matchesAny user_message ["market", "price", "profit"])
      (match crop_recommendations with
        | top :: _ =>
            ["Market analysis for " ++ top.crop ++ ": High suitability score (" ++
              toString top.score_percent ++
              "%) suggests good yield potential, which typically correlates with better profit margins."]
        | [] => [])
    ++ seg (pyIn "market" user_message)
      ["Market strategies: Diversify crops to spread risk, monitor local and global price trends, build relationships with buyers, and consider value-added processing."]
    ++ seg (pyIn "cost" user_message || pyIn "budget" user_message)
      ["Cost management: Track all inputs, compare organic vs conventional costs, consider long-term soil health investments, and analyze cost-benefit ratios for new technologies."]
  let parts := ensureNonempty parts
    "Agricultural economics: Focus on sustainable practices that improve long-term profitability, monitor market trends, and build strong supply chain relationships."
  pyJoin " " parts

/-- Python `_handle_sustainability_queries`. -/
def handle_sustainability_queries (soil_conditions : List (String × ℚ))
    (crop_recommendations : List CropSuitability) (user_message : String) : String :=
  let parts : List String :=
    seg (pyIn "soil" user_message &&
        matchesAny user_message ["sustainability", "organic", "health"])
      (optSeg (dictGet soil_conditions "ph") (fun ph =>
        if 6 ≤ ph ∧ ph ≤ 7.5 then
          ["Your soil pH (\x7b\x7d) is in the optimal range for sustainable agriculture. This supports diverse soil life and efficient nutrient cycling."]
        else
          ["Soil pH (\x7b\x7d) could be improved for sustainability. Consider organic amendments like compost to gradually adjust pH and improve soil structure."]))
    ++ seg (!crop_recommendations.isEmpty && pyIn "sustainability" user_message)
      (if crop_recommendations.length ≥ 5 then
        ["Good crop diversity (" ++ toString crop_recommendations.length ++
          " options) supports sustainable farming by reducing pest pressure and improving soil health through crop rotation."]
       else
        ["Consider expanding crop diversity for better sustainability. Multiple crops in rotation improve soil health and reduce disease risk."])
    ++ seg (pyIn "sustainability" user_message)
      ["Sustainable practices: Crop rotation, cover crops, reduced tillage, integrated pest management, and organic amendments build long-term soil health and farm resilience."]
  let parts := ensureNonempty parts
    "Environmental stewardship: Sustainable agriculture protects natural resources, improves soil health, and ensures long-term productivity while supporting biodiversity."
  pyJoin " " parts

/-- Python `_handle_time_queries`. -/
def handle_time_queries (weather_forecast : List (String × ℚ))
    (crop_recommendations : List CropSuitability) (user_message : String) : String :=
  let parts : List String :=
    seg (pyIn "season" user_message || pyIn "timing" user_message)
      (optSeg (dictGet weather_forecast "temperature") (fun t =>
        [if t < 15 then
          "Cool season conditions (\x7b\x7d°C) - ideal for cool-season crops like lettuce, spinach, and peas."
         else if t < 25 then
          "Moderate season conditions (\x7b\x7d°C) - optimal for most crops including tomatoes, peppers, and beans."
         else
          "Warm season conditions (\x7b\x7d°C) - perfect for heat-loving crops like corn, melons, and okra."]))
    ++ seg (!crop_recommendations.isEmpty &&
        matchesAny user_message ["plant", "sow", "transplant"])
      (match crop_recommendations with
        | top :: _ =>
            ["For " ++ top.crop ++ " (suitability: " ++ toString top.score_percent ++
              "%), plant when soil temperature is optimal and frost risk is minimal."]
        | [] => [])
    ++ seg (pyIn "schedule" user_message || pyIn "planning" user_message)
      ["Farming schedule: Plan crop rotations, prepare soil early, stagger plantings for continuous harvest, and align activities with weather patterns."]
  let parts := ensureNonempty parts
    "Timing is crucial in agriculture: Align planting with optimal conditions, consider crop maturity periods, and plan for seasonal weather patterns."
  pyJoin " " parts

/-- Python `_handle_measurement_queries`. -/
def handle_measurement_queries (soil_conditions weather_forecast : List (String × ℚ))
    (sensor_health : List (String × SensorInfo)) (user_message : String) : String :=
  let available_data : List String :=
    seg (!soil_conditions.isEmpty)
      ["soil (" ++ toString soil_conditions.length ++ " parameters)"]
    ++ seg (!weather_forecast.isEmpty)
      ["weather (" ++ toString weather_forecast.length ++ " parameters)"]
    ++ seg (!sensor_health.isEmpty)
      ["sensors (" ++ toString sensor_health.length ++ " devices)"]
  let parts : List String :=
    seg (!available_data.isEmpty)
      ["Available data sources: " ++ pyJoin ", " available_data]
    ++ seg (pyIn "accuracy" user_message || pyIn "precision" user_message)
      ["Data accuracy: Soil sensors typically ±5%, weather stations ±2°C, and pH meters ±0.1 pH units. Regular calibration ensures reliable measurements."]
    ++ seg (pyIn "interpret" user_message || pyIn "meaning" user_message)
      ["Data interpretation: Compare current readings to historical averages, consider seasonal trends, and use multiple data points for informed decisions."]
  let parts := ensureNonempty parts
    "Measurement systems: Regular monitoring provides trends, early warning of problems, and data-driven decision making for optimal crop management."
  pyJoin " " parts

/-- Python `_handle_help_queries`. -/
def handle_help_queries (zone_name : String) (user_message : String) : String :=
  if pyIn "help" user_message then
    "I\x27m your agricultural assistant for " ++ zone_name ++
      ". I can help with:\n• Soil analysis and recommendations\n• Crop suitability and planning\n• Weather monitoring and forecasts\n• Sensor health and data\n• Water and irrigation management\n• Pest and disease control\n• Fertilization strategies\n• Machinery and equipment\n• Market and economics\n• Sustainability practices\n\nJust ask me about any of these topics!"
  else if pyIn "explain" user_message || pyIn "what" user_message then
    "I can explain agricultural concepts, interpret your zone data, and provide actionable recommendations. What would you like me to clarify?"
  else if pyIn "learn" user_message || pyIn "teach" user_message then
    "I\x27m here to help you learn about agricultural best practices. I can explain soil science, crop management, and sustainable farming techniques based on your zone data."
  else
    "I\x27m here to help! Ask me about soil conditions, crops, weather, sensors, or any other agricultural topic related to your zone."

/-- The exact-greeting response (inline in `generate_agricultural_response`). -/
def greeting_response (zone_name : String) : String :=
  "I\x27m here to help you with agricultural insights for " ++ zone_name ++
    ". You can ask me about soil conditions, crop recommendations, weather patterns, or sensor data. How can I assist you today?"

/-- The greeting test: `any(greeting == strip for ...) or strip in exact_greetings`
(both disjuncts appear in the source). -/
def isExactGreeting (user_message_lower : String) : Bool :=
  exact_greetings.any (fun greeting => greeting == user_message_lower.trim) ||
    exact_greetings.contains user_message_lower.trim

/-- The `available_topics` list of `_generate_contextual_fallback`. -/
def available_topics (soil_conditions : List (String × ℚ))
    (crop_recommendations : List CropSuitability) (weather_forecast : List (String × ℚ))
    (sensor_health : List (String × SensorInfo)) : List String :=
  seg (!soil_conditions.isEmpty) ["soil conditions"]
  ++ seg (!crop_recommendations.isEmpty) ["crop recommendations"]
  ++ seg (!weather_forecast.isEmpty) ["weather data"]
  ++ seg (!sensor_health.isEmpty) ["sensor readings"]

/-- Python `_generate_contextual_fallback`. -/
def generate_contextual_fallback (zone_name : String) (soil_conditions : List (String × ℚ))
    (crop_recommendations : List CropSuitability) (weather_forecast : List (String × ℚ))
    (sensor_health : List (String × SensorInfo)) (_user_message : String) : String :=
  let topics := available_topics soil_conditions crop_recommendations weather_forecast
    sensor_health
  if !topics.isEmpty then
    "I can only help with agricultural information related to " ++ zone_name ++
      ". I have data about " ++ pyJoin ", " topics ++
      ". Please ask me about these topics or request a zone summary. For other questions, contact your system administrator."
  else
    "I can only help with agricultural information related to " ++ zone_name ++
      ". Currently, I don\x27t have access to zone data. Please check your sensor connections or contact your zone administrator to set up data collection."

/-- Python `generate_agricultural_response`: the priority-ordered keyword dispatch. -/
def generate_agricultural_response (zone_name : String)
    (soil_conditions : List (String × ℚ)) (crop_recommendations : List CropSuitability)
    (weather_forecast : List (String × ℚ)) (sensor_health : List (String × SensorInfo))
    (user_message : String) : String :=
  let user_message_lower := user_message.toLower
  if matchesAny user_message_lower crop_keywords then
    handle_crop_queries crop_recommendations user_message_lower
  else if matchesAny user_message_lower soil_keywords then
    handle_soil_queries soil_conditions user_message_lower
  else if matchesAny user_message_lower weather_keywords then
    handle_weather_queries weather_forecast user_message_lower
  else if matchesAny user_message_lower sensor_keywords then
    handle_sensor_queries sensor_health user_message_lower
  else if matchesAny user_message_lower water_keywords then
    handle_water_queries soil_conditions weather_forecast user_message_lower
  else if matchesAny user_message_lower pest_keywords then
    handle_pest_queries soil_conditions weather_forecast user_message_lower
  else if matchesAny user_message_lower fertilizer_keywords then
    handle_fertilizer_queries soil_conditions user_message_lower
  else if matchesAny user_message_lower machinery_keywords then
    handle_machinery_queries user_message_lower
  else if matchesAny user_message_lower market_keywords then
    handle_market_queries crop_recommendations user_message_lower
  else if matchesAny user_message_lower sustainability_keywords then
    handle_sustainability_queries soil_conditions crop_recommendations user_message_lower
  else if matchesAny user_message_lower time_keywords then
    handle_time_queries weather_forecast crop_recommendations user_message_lower
  else if matchesAny user_message_lower measurement_keywords then
    handle_measurement_queries soil_conditions weather_forecast sensor_health
      user_message_lower
  else if matchesAny user_message_lower general_keywords then
    generate_zone_summary zone_name soil_conditions crop_recommendations weather_forecast
      sensor_health
  else if matchesAny user_message_lower help_keywords then
    handle_help_queries zone_name user_message_lower
  else if isExactGreeting user_message_lower then
    greeting_response zone_name
  else
    generate_contextual_fallback zone_name soil_conditions crop_recommendations
      weather_forecast sensor_health user_message_lower

/-- Spec-side view of the router: the ordered `(predicate, handler-result)`
list, in the contract order crop, soil, weather, sensor, water, pest,
fertilizer, machinery, market, sustainability, time, measurement,
general/summary, help, exact-greeting. -/
def router_categories (zone_name : String) (soil_conditions : List (String × ℚ))
    (crop_recommendations : List CropSuitability) (weather_forecast : List (String × ℚ))
    (sensor_health : List (String × SensorInfo)) (msg : String) : List (Bool × String) :=
  [(matchesAny msg crop_keywords, handle_crop_queries crop_recommendations msg),
   (matchesAny msg soil_keywords, handle_soil_queries soil_conditions msg),
   (matchesAny msg weather_keywords, handle_weather_queries weather_forecast msg),
   (matchesAny msg sensor_keywords, handle_sensor_queries sensor_health msg),
   (matchesAny msg water_keywords, handle_water_queries soil_conditions weather_forecast msg),
   (matchesAny msg pest_keywords, handle_pest_queries soil_conditions weather_forecast msg),
   (matchesAny msg fertilizer_keywords, handle_fertilizer_queries soil_conditions msg),
   (matchesAny msg machinery_keywords, handle_machinery_queries msg),
   (matchesAny msg market_keywords, handle_market_queries crop_recommendations msg),
   (matchesAny msg sustainability_keywords,
     handle_sustainability_queries soil_conditions crop_recommendations msg),
   (matchesAny msg time_keywords,
     handle_time_queries weather_forecast crop_recommendations msg),
   (matchesAny msg measurement_keywords,
     handle_measurement_queries soil_conditions weather_forecast sensor_health msg),
   (matchesAny msg general_keywords,
     generate_zone_summary zone_name soil_conditions crop_recommendations weather_forecast
       sensor_health),
   (matchesAny msg help_keywords, handle_help_queries zone_name msg),
   (isExactGreeting msg, greeting_response zone_name)]

/-- First-match-wins dispatch over an ordered category list. -/
def first_match : List (Bool × String) → String → String
  | [], fallback => fallback
  | (b, r) :: rest, fallback => if b then r else first_match rest fallback

/-- The spec\x27s ChatResponseRouter: try the categories in their fixed
priority order, first match wins, with the context-aware fallback last. -/
def chat_response_router (zone_name : String) (soil_conditions : List (String × ℚ))
    (crop_recommendations : List CropSuitability) (weather_forecast : List (String × ℚ))
    (sensor_health : List (String × SensorInfo)) (user_message : String) : String :=
  first_match
    (router_categories zone_name soil_conditions crop_recommendations weather_forecast
      sensor_health user_message.toLower)
    (generate_contextual_fallback zone_name soil_conditions crop_recommendations
      weather_forecast sensor_health user_message.toLower)

/-- C5: the deterministic responder is exactly the first-match dispatch over
the fixed priority order crop, soil, weather, sensor, water, pest, fertilizer,
machinery, market, sustainability, time, measurement, general/summary, help,
exact-greeting, then the context-aware fallback; in particular a message
matching several categories is answered by the earliest matching one. -/
theorem responder_is_priority_router (zone_name : String)
    (soil_conditions : List (String × ℚ)) (crop_recommendations : List CropSuitability)
    (weather_forecast : List (String × ℚ)) (sensor_health : List (String × SensorInfo))
    (user_message : String) :
    generate_agricultural_response zone_name soil_conditions crop_recommendations
        weather_forecast sensor_health user_message =
      chat_response_router zone_name soil_conditions crop_recommendations weather_forecast
        sensor_health user_message := rfl

/-! ## Non-emptiness of every responder branch (C6) -/

lemma posl (a b : String) (h : 0 < a.length) : 0 < (a ++ b).length := by
  rw [String.length_append]; omega

lemma posr (a b : String) (h : 0 < b.length) : 0 < (a ++ b).length := by
  rw [String.length_append]; omega

/-- Every string in the list is non-empty. -/
def AllPos (l : List String) : Prop := ∀ p ∈ l, 0 < p.length

lemma allPos_nil : AllPos [] := fun p hp => absurd hp (List.not_mem_nil p)

lemma allPos_singleton {s : String} (h : 0 < s.length) : AllPos [s] := by
  intro p hp
  rw [List.mem_singleton.1 hp]
  exact h

lemma AllPos.append {xs ys : List String} (hx : AllPos xs) (hy : AllPos ys) :
    AllPos (xs ++ ys) := by
  intro p hp
  rcases List.mem_append.1 hp with h | h
  · exact hx p h
  · exact hy p h

lemma allPos_seg {c : Bool} {xs : List String} (h : AllPos xs) : AllPos (seg c xs) := by
  intro p hp
  unfold seg at hp
  split at hp
  · exact h p hp
  · exact absurd hp (List.not_mem_nil p)

lemma allPos_optSeg {o : Option ℚ} {f : ℚ → List String} (h : ∀ v, AllPos (f v)) :
    AllPos (optSeg o f) := by
  cases o with
  | none => exact allPos_nil
  | some v => exact h v

lemma allPos_ensure {parts : List String} {s : String} (hp : AllPos parts)
    (hs : 0 < s.length) : AllPos (ensureNonempty parts s) := by
  unfold ensureNonempty
  split
  · intro p hmem
    rcases List.mem_append.1 hmem with h | h
    · exact hp p h
    · rw [List.mem_singleton.1 h]
      exact hs
  · exact hp

lemma ensureNonempty_ne_nil (parts : List String) (s : String) :
    ensureNonempty parts s ≠ [] := by
  unfold ensureNonempty
  split
  · simp
  · rename_i h
    simpa [List.isEmpty_iff] using h

lemma pyJoin_pos (sep : String) (l : List String) (hne : l ≠ []) (hall : AllPos l) :
    0 < (pyJoin sep l).length := by
  match l with
  | [] => exact absurd rfl hne
  | [x] =>
      show 0 < (pyJoin sep [x]).length
      unfold pyJoin
      exact hall x (by simp)
  | x :: y :: ys =>
      show 0 < (pyJoin sep (x :: y :: ys)).length
      unfold pyJoin
      exact posl _ _ (posl _ _ (hall x (by simp)))

lemma allPos_npkSoil (n p k : Option ℚ) : AllPos (npkSoilParts n p k) := by
  unfold npkSoilParts
  rcases n with - | n <;> rcases p with - | p <;> rcases k with - | k <;>
    try exact allPos_nil
  refine (((allPos_singleton ?_).append (allPos_seg (allPos_singleton (by decide)))).append
    (allPos_seg (allPos_singleton (by decide)))).append
      (allPos_seg (allPos_singleton (by decide)))
  exact posl _ _ (posl _ _ (posl _ _ (posl _ _ (posl _ _ (posl _ _ (by decide))))))

lemma handle_soil_queries_pos (soil_conditions : List (String × ℚ)) (user_message : String) :
    0 < (handle_soil_queries soil_conditions user_message).length := by
  unfold handle_soil_queries
  split
  · decide
  · refine pyJoin_pos _ _ (ensureNonempty_ne_nil _ _) (allPos_ensure ?_ (posl _ _ (by decide)))
    refine (((allPos_seg (allPos_optSeg fun v => allPos_singleton ?_)).append
      (allPos_seg (allPos_optSeg fun v => allPos_singleton ?_))).append
        (allPos_seg (allPos_npkSoil _ _ _)))
    · exact posl _ _ (posl _ _ (posl _ _ (by decide)))
    · exact posl _ _ (posl _ _ (posl _ _ (by decide)))

lemma summarize_crop_recommendations_pos (crop_recommendations : List CropSuitability) :
    0 < (summarize_crop_recommendations crop_recommendations).length := by
  unfold summarize_crop_recommendations
  split
  · decide
  · split
    · exact posl _ _ (posl _ _ (posl _ _ (posl _ _ (by decide))))
    · exact posl _ _ (by decide)

lemma handle_crop_queries_pos (crop_recommendations : List CropSuitability)
    (user_message : String) :
    0 < (handle_crop_queries crop_recommendations user_message).length := by
  unfold handle_crop_queries
  split
  · decide
  · split
    · exact summarize_crop_recommendations_pos _
    · split
      · exact posl _ _ (posl _ _ (posl _ _ (posl _ _ (posr _ _ (by decide)))))
      · split
        · exact posl _ _ (posl _ _ (posl _ _ (posl _ _ (by decide))))
        · decide

lemma handle_weather_queries_pos (weather_forecast : List (String × ℚ))
    (user_message : String) :
    0 < (handle_weather_queries weather_forecast user_message).length := by
  unfold handle_weather_queries
  split
  · decide
  · refine pyJoin_pos _ _ (ensureNonempty_ne_nil _ _) (allPos_ensure ?_ (posl _ _ (by decide)))
    refine ((allPos_seg (allPos_optSeg fun v => allPos_singleton ?_)).append
      (allPos_seg (allPos_optSeg fun v => allPos_singleton ?_))).append
        (allPos_seg (allPos_optSeg fun v => allPos_singleton ?_))
    · exact posl _ _ (posl _ _ (posl _ _ (by decide)))
    · exact posl _ _ (posl _ _ (posl _ _ (by decide)))
    · exact posl _ _ (posl _ _ (posl _ _ (by decide)))

lemma handle_sensor_queries_pos (sensor_health : List (String × SensorInfo))
    (user_message : String) :
    0 < (handle_sensor_queries sensor_health user_message).length := by
  unfold handle_sensor_queries
  split
  · decide
  · dsimp only
    split
    · split
      · exact posl _ _ (posl _ _ (posl _ _ (posl _ _ (posl _ _ (posl _ _ (by decide))))))
      · decide
    · split
      · exact posl _ _ (posl _ _ (posl _ _ (posr _ _ (by decide))))
      · decide

lemma generate_zone_summary_pos (zone_name : String) (soil_conditions : List (String × ℚ))
    (crop_recommendations : List CropSuitability) (weather_forecast : List (String × ℚ))
    (sensor_health : List (String × SensorInfo)) :
    0 < (generate_zone_summary zone_name soil_conditions crop_recommendations
      weather_forecast sensor_health).length := by
  unfold generate_zone_summary
  refine pyJoin_pos _ _ ?_ ?_
  · exact List.cons_ne_nil _ _
  · refine ((((allPos_singleton ?_).append
      (allPos_seg (allPos_singleton ?_))).append ?_).append
        (allPos_seg ?_)).append (allPos_seg (allPos_singleton ?_))
    · exact posl _ _ (posl _ _ (by decide))
    · decide
    · cases crop_recommendations with
      | nil => exact allPos_nil
      | cons top rest =>
          exact allPos_singleton (posl _ _ (posl _ _ (posl _ _ (posl _ _ (by decide)))))
    · rcases dictGet weather_forecast "temperature" with - | t <;>
        rcases dictGet weather_forecast "rainfall" with - | r <;>
        first
        | exact allPos_nil
        | exact allPos_singleton (posl _ _ (posl _ _ (posl _ _ (posl _ _ (by decide)))))
    · exact posl _ _ (posl _ _ (posl _ _ (posl _ _ (by decide))))

lemma handle_water_queries_pos (soil_conditions weather_forecast : List (String × ℚ))
    (user_message : String) :
    0 < (handle_water_queries soil_conditions weather_forecast user_message).length := by
  unfold handle_water_queries
  refine pyJoin_pos _ _ (ensureNonempty_ne_nil _ _) (allPos_ensure ?_ (by decide))
  refine ((allPos_seg (allPos_optSeg fun v => allPos_singleton ?_)).append
    (allPos_seg (allPos_optSeg fun v => allPos_singleton ?_))).append
      (allPos_seg (allPos_singleton (by decide)))
  · split_ifs <;> decide
  · split_ifs <;> decide

lemma handle_pest_queries_pos (soil_conditions weather_forecast : List (String × ℚ))
    (user_message : String) :
    0 < (handle_pest_queries soil_conditions weather_forecast user_message).length := by
  unfold handle_pest_queries
  refine pyJoin_pos _ _ (ensureNonempty_ne_nil _ _) (allPos_ensure ?_ (by decide))
  refine (allPos_seg ((allPos_optSeg fun v => allPos_seg (allPos_singleton (by decide))).append
    (allPos_optSeg fun v => allPos_seg (allPos_singleton (by decide))))).append
      (allPos_seg (allPos_optSeg fun v => ?_))
  split_ifs <;> first | exact allPos_nil | exact allPos_singleton (by decide)

lemma allPos_npkFertilizer (n p k : Option ℚ) : AllPos (npkFertilizerParts n p k) := by
  unfold npkFertilizerParts
  rcases n with - | n <;> rcases p with - | p <;> rcases k with - | k <;>
    try exact allPos_nil
  refine (((allPos_singleton
    (posl _ _ (posl _ _ (posl _ _ (posl _ _ (posl _ _ (posl _ _ (by decide)))))))).append
      ?_).append ?_).append ?_ <;>
    split_ifs <;> first | exact allPos_nil | exact allPos_singleton (by decide)

lemma handle_fertilizer_queries_pos (soil_conditions : List (String × ℚ))
    (user_message : String) :
    0 < (handle_fertilizer_queries soil_conditions user_message).length := by
  unfold handle_fertilizer_queries
  refine pyJoin_pos _ _ (ensureNonempty_ne_nil _ _) (allPos_ensure ?_ (by decide))
  exact (allPos_seg (allPos_npkFertilizer _ _ _)).append
    (allPos_seg (allPos_singleton (by decide)))

lemma handle_machinery_queries_pos (user_message : String) :
    0 < (handle_machinery_queries user_message).length := by
  unfold handle_machinery_queries
  split_ifs <;> decide

lemma handle_market_queries_pos (crop_recommendations : List CropSuitability)
    (user_message : String) :
    0 < (handle_market_queries crop_recommendations user_message).length := by
  unfold handle_market_queries
  refine pyJoin_pos _ _ (ensureNonempty_ne_nil _ _) (allPos_ensure ?_ (by decide))
  refine ((allPos_seg ?_).append (allPos_seg (allPos_singleton (by decide)))).append
    (allPos_seg (allPos_singleton (by decide)))
  cases crop_recommendations with
  | nil => exact allPos_nil
  | cons top rest =>
      exact allPos_singleton (posl _ _ (posl _ _ (posl _ _ (posl _ _ (by decide)))))

lemma handle_sustainability_queries_pos (soil_conditions : List (String × ℚ))
    (crop_recommendations : List CropSuitability) (user_message : String) :
    0 < (handle_sustainability_queries soil_conditions crop_recommendations
      user_message).length := by
  unfold handle_sustainability_queries
  refine pyJoin_pos _ _ (ensureNonempty_ne_nil _ _) (allPos_ensure ?_ (by decide))
  refine ((allPos_seg (allPos_optSeg fun v => ?_)).append (allPos_seg ?_)).append
    (allPos_seg (allPos_singleton (by decide)))
  · split_ifs <;> exact allPos_singleton (by decide)
  · split_ifs
    · exact allPos_singleton (posl _ _ (posl _ _ (by decide)))
    · exact allPos_singleton (by decide)

lemma handle_time_queries_pos (weather_forecast : List (String × ℚ))
    (crop_recommendations : List CropSuitability) (user_message : String) :
    0 < (handle_time_queries weather_forecast crop_recommendations user_message).length := by
  unfold handle_time_queries
  refine pyJoin_pos _ _ (ensureNonempty_ne_nil _ _) (allPos_ensure ?_ (by decide))
  refine ((allPos_seg (allPos_optSeg fun v => allPos_singleton ?_)).append
    (allPos_seg ?_)).append (allPos_seg (allPos_singleton (by decide)))
  · split_ifs <;> decide
  · cases crop_recommendations with
    | nil => exact allPos_nil
    | cons top rest =>
        exact allPos_singleton (posl _ _ (posl _ _ (posl _ _ (posl _ _ (by decide)))))

lemma handle_measurement_queries_pos (soil_conditions weather_forecast : List (String × ℚ))
    (sensor_health : List (String × SensorInfo)) (user_message : String) :
    0 < (handle_measurement_queries soil_conditions weather_forecast sensor_health
      user_message).length := by
  unfold handle_measurement_queries
  refine pyJoin_pos _ _ (ensureNonempty_ne_nil _ _) (allPos_ensure ?_ (by decide))
  refine ((allPos_seg (allPos_singleton (posl _ _ (by decide)))).append
    (allPos_seg (allPos_singleton (by decide)))).append
      (allPos_seg (allPos_singleton (by decide)))

lemma handle_help_queries_pos (zone_name : String) (user_message : String) :
    0 < (handle_help_queries zone_name user_message).length := by
  unfold handle_help_queries
  split_ifs
  · exact posl _ _ (posl _ _ (by decide))
  · decide
  · decide
  · decide

lemma greeting_response_pos (zone_name : String) :
    0 < (greeting_response zone_name).length := by
  unfold greeting_response
  exact posl _ _ (posl _ _ (by decide))

lemma generate_contextual_fallback_pos (zone_name : String)
    (soil_conditions : List (String × ℚ)) (crop_recommendations : List CropSuitability)
    (weather_forecast : List (String × ℚ)) (sensor_health : List (String × SensorInfo))
    (user_message : String) :
    0 < (generate_contextual_fallback zone_name soil_conditions crop_recommendations
      weather_forecast sensor_health user_message).length := by
  unfold generate_contextual_fallback
  dsimp only
  split
  · exact posl _ _ (posl _ _ (posl _ _ (posl _ _ (by decide))))
  · exact posl _ _ (posl _ _ (by decide))

lemma toList_append (a b : String) : (a ++ b).toList = a.toList ++ b.toList :=
  String.data_append a b

lemma itePosLen {c : Prop} [Decidable c] {a b : String} (ha : 0 < a.length)
    (hb : 0 < b.length) : 0 < (if c then a else b).length := by
  split
  · exact ha
  · exact hb

lemma mem_pyJoin_factor (sep : String) :
    ∀ (l : List String) (t : String), t ∈ l → t.toList <:+: (pyJoin sep l).toList := by
  intro l
  induction l with
  | nil => intro t ht; cases ht
  | cons x xs ih =>
      intro t ht
      cases xs with
      | nil =>
          rw [List.mem_singleton.1 ht]
          exact List.infix_refl _
      | cons y ys =>
          rcases List.mem_cons.1 ht with rfl | ht'
          · show t.toList <:+: (t ++ sep ++ pyJoin sep (y :: ys)).toList
            rw [toList_append, toList_append, List.append_assoc]
            exact (List.prefix_append _ _).isInfix
          · refine (ih t ht').trans ?_
            show (pyJoin sep (y :: ys)).toList <:+: (x ++ sep ++ pyJoin sep (y :: ys)).toList
            rw [toList_append, toList_append]
            exact (List.suffix_append _ _).isInfix

set_option maxHeartbeats 2000000 in
/-- C6: the deterministic responder returns a non-empty string for every
non-empty user message (in fact for every message), and the terminal
context-aware fallback names every data category that is available for the
zone (each available topic occurs verbatim in the reply), while with no data
at all it returns the fixed request to verify data collection. -/
theorem responder_never_empty_and_fallback_lists_topics :
    (∀ (zone_name : String) (soil_conditions : List (String × ℚ))
        (crop_recommendations : List CropSuitability)
        (weather_forecast : List (String × ℚ))
        (sensor_health : List (String × SensorInfo)) (user_message : String),
        user_message ≠ "" →
        0 < (generate_agricultural_response zone_name soil_conditions crop_recommendations
          weather_forecast sensor_health user_message).length) ∧
    (∀ (zone_name : String) (soil_conditions : List (String × ℚ))
        (crop_recommendations : List CropSuitability)
        (weather_forecast : List (String × ℚ))
        (sensor_health : List (String × SensorInfo)) (user_message : String),
        (available_topics soil_conditions crop_recommendations weather_forecast
            sensor_health = [] →
          generate_contextual_fallback zone_name soil_conditions crop_recommendations
              weather_forecast sensor_health user_message =
            "I can only help with agricultural information related to " ++ zone_name ++
              ". Currently, I don\x27t have access to zone data. Please check your sensor connections or contact your zone administrator to set up data collection.") ∧
        (∀ topic ∈ available_topics soil_conditions crop_recommendations weather_forecast
            sensor_health,
          pyIn topic (generate_contextual_fallback zone_name soil_conditions
            crop_recommendations weather_forecast sensor_health user_message) = true)) := by
  constructor
  · intro zone_name soil_conditions crop_recommendations weather_forecast sensor_health
      user_message hne
    unfold generate_agricultural_response
    dsimp only
    exact itePosLen (handle_crop_queries_pos _ _)
      (itePosLen (handle_soil_queries_pos _ _)
      (itePosLen (handle_weather_queries_pos _ _)
      (itePosLen (handle_sensor_queries_pos _ _)
      (itePosLen (handle_water_queries_pos _ _ _)
      (itePosLen (handle_pest_queries_pos _ _ _)
      (itePosLen (handle_fertilizer_queries_pos _ _)
      (itePosLen (handle_machinery_queries_pos _)
      (itePosLen (handle_market_queries_pos _ _)
      (itePosLen (handle_sustainability_queries_pos _ _ _)
      (itePosLen (handle_time_queries_pos _ _ _)
      (itePosLen (handle_measurement_queries_pos _ _ _ _)
      (itePosLen (generate_zone_summary_pos _ _ _ _ _)
      (itePosLen (handle_help_queries_pos _ _)
      (itePosLen (greeting_response_pos _)
        (generate_contextual_fallback_pos _ _ _ _ _ _)))))))))))))))
  · intro zone_name soil_conditions crop_recommendations weather_forecast sensor_health
      user_message
    constructor
    · intro htop
      unfold generate_contextual_fallback
      dsimp only
      rw [htop]
      rfl
    · intro topic htopic
      have hne : available_topics soil_conditions crop_recommendations weather_forecast
          sensor_health ≠ [] := List.ne_nil_of_mem htopic
      have hcond : (!(available_topics soil_conditions crop_recommendations weather_forecast
          sensor_health).isEmpty) = true := by
        cases h : available_topics soil_conditions crop_recommendations weather_forecast
            sensor_health with
        | nil => exact absurd h hne
        | cons a l => rfl
      unfold generate_contextual_fallback
      dsimp only
      rw [if_pos hcond]
      unfold pyIn
      apply decide_eq_true
      refine (mem_pyJoin_factor ", " _ topic htopic).trans ?_
      rw [toList_append, toList_append, toList_append, toList_append]
      exact List.infix_append _ _ _

/-- Witness for `responder_never_empty_and_fallback_lists_topics` at a
concrete zone with no data and the message "hello". -/
theorem responder_never_empty_witness :
    0 < (generate_agricultural_response "Zone A" [] [] [] [] "hello").length :=
  responder_never_empty_and_fallback_lists_topics.1 "Zone A" [] [] [] [] "hello" (by decide)
